import Mathlib

/-!
Verification development for the Joy-Con serial gamepad driver
(`drivers/input/joystick/joycon.c`).

The driver's protocol/session layer is embedded shallowly: per-session
state (`struct joycon`) and the process-wide aggregate state (the file's
static globals) become Lean structures; inbound packets are byte
functions (`Nat → Nat`, each read reduced mod 256 to reflect the `u8`
buffer type); each C handler becomes a pure function from pre-state to
post-state plus its observable effects (transport writes, input events,
re-arm delay).
-/

namespace Joycon

/-! ## Constants from the C source -/

/-- Source constant `#define JOYCON_COMMAND_EXTSEND (0x91)` -/
def JOYCON_COMMAND_EXTSEND : Nat := 0x91

/-- Source constant `#define JOYCON_COMMAND_EXTRET (0x92)` -/
def JOYCON_COMMAND_EXTRET : Nat := 0x92

/-- Source constant `#define JOYCON_COMMAND_INITRET (0x94)` -/
def JOYCON_COMMAND_INITRET : Nat := 0x94

/-- Source constant `#define JOYCON_COMMAND_HANDSHAKE (0xA5)` -/
def JOYCON_COMMAND_HANDSHAKE : Nat := 0xA5

/-- Source constant `#define JOYCON_INIT_MAC (0x1)` -/
def JOYCON_INIT_MAC : Nat := 0x1

/-- Source constant `#define JOYCON_INIT_BAUDRATE (0x20)` -/
def JOYCON_INIT_BAUDRATE : Nat := 0x20

/-- Source constant `#define JOYCON_INIT_UNK1 (0x11)` -/
def JOYCON_INIT_UNK1 : Nat := 0x11

/-- Source constant `#define JOYCON_INIT_UNK2 (0x10)` -/
def JOYCON_INIT_UNK2 : Nat := 0x10

/-- Source constant `#define JOYCON_INIT_UNK3 (0x12)` -/
def JOYCON_INIT_UNK3 : Nat := 0x12

/-- Source constant `#define JOYCON_EXT_INPUT (0x30)` -/
def JOYCON_EXT_INPUT : Nat := 0x30

/-- Source constant `#define JOYCON_BUTTONS_LEFT (0xFFE900)` -/
def JOYCON_BUTTONS_LEFT : Nat := 0xFFE900

/-- Source constant `#define JOYCON_BUTTONS_RIGHT (0x76FF)` -/
def JOYCON_BUTTONS_RIGHT : Nat := 0x76FF

/-- Source constant `#define JOYCON_BUTTONS_ALL (JOYCON_BUTTONS_LEFT | JOYCON_BUTTONS_RIGHT)` -/
def JOYCON_BUTTONS_ALL : Nat := JOYCON_BUTTONS_LEFT ||| JOYCON_BUTTONS_RIGHT

/-- Source constant `#define JOYCON_BUTTONSET_LEFT BIT(0)` -/
def JOYCON_BUTTONSET_LEFT : Nat := 1

/-- Source constant `#define JOYCON_BUTTONSET_RIGHT BIT(1)` -/
def JOYCON_BUTTONSET_RIGHT : Nat := 2

/-- Size of the `u8 mac[6]` array in `struct joycon`. -/
def mac_array_size : Nat := 6

/-- The four analog axes registered in `joycon_serdev_probe`. -/
inductive Axis | X | Y | RX | RY
deriving DecidableEq, Repr

/-- Source call `input_set_abs_params(input_dev, ..., 32, 255 - 32, 0, 4)`: the minimum
registered for every axis in `joycon_serdev_probe`. -/
def axis_min : Int := 32

/-- Source call `input_set_abs_params(input_dev, ..., 32, 255 - 32, 0, 4)`: the maximum
registered for every axis in `joycon_serdev_probe` (255 - 32 = 223). -/
def axis_max : Int := 255 - 32

/-! ## Byte buffers

Inbound packets are modelled as `Nat → Nat`; every read goes through
`byt`, which truncates to one byte, reflecting that the C buffer is
`u8 *` (each element is a `u8`). -/

/-- Read byte `i` of a packet buffer; the underlying C type is `u8`. -/
def byt (p : Nat → Nat) (i : Nat) : Nat := p i % 256

/-- Bitwise complement of a mask at `u32` width, used to embed C's `~mask`
applied to the `u32` global `buttons`. -/
def u32_not (m : Nat) : Nat := 0xFFFFFFFF ^^^ m

/-! ## Driver state

`struct joycon` fields used by the protocol layer, and the file-scope
globals (`static u32 buttons; static int stick_lx, stick_ly, stick_rx,
stick_ry;`) shared by all sessions and read by the sync task. -/

/-- Per-session state: the fields of `struct joycon` that the protocol
layer reads or writes (`handshaken`, `initialized`, `timeout_samples`,
`num_samples`, `button_set`, `buttons`). The C `int` counters are
modelled as `Int`. -/
structure JoyconState where
  handshaken : Bool
  initialized : Bool
  timeout_samples : Int
  num_samples : Int
  button_set : Nat
  buttons : Nat
deriving DecidableEq, Repr

/-- The process-wide aggregate state: static globals `buttons` (a `u32`)
and the four `int` stick values, mutated under `joycon_input_lock`. -/
structure GlobalState where
  buttons : Nat
  stick_lx : Int
  stick_ly : Int
  stick_rx : Int
  stick_ry : Int
deriving DecidableEq, Repr

/-! ## Outbound commands

The six static command tables, identified by name; handlers report which
of them they wrote to the serdev transport. -/

/-- One outbound transport write, identified by which static command
table was passed to `serdev_device_write`. -/
inductive Cmd
  | magicStart
  | handshakeStart
  | getMac
  | switchBaud
  | controllerStatus
  | unk1
  | unk2
  | unk3
deriving DecidableEq, Repr

/-! ## joycon_extret_parse

Embeds the `JOYCON_EXT_INPUT` handling of `joycon_extret_parse`: the
session's local `buttons` is rebuilt from payload bytes 3..5, the global
`buttons` is merged under the session's `button_set` masks, the stick
globals owned by the session's side are rewritten, and `num_samples` is
incremented. `p` is the sub-packet pointer `packet + sizeof(joycon_uart_header)`. -/

/-- Embedding of `joycon_extret_parse`. Returns the updated session and
global state. A packet whose first byte is not `JOYCON_EXT_INPUT` only
logs and changes nothing. -/
def joycon_extret_parse (jc : JoyconState) (g : GlobalState) (p : Nat → Nat) :
    JoyconState × GlobalState :=
  if byt p 0 = JOYCON_EXT_INPUT then
    let jbtn := byt p 3 ||| (byt p 4 <<< 8) ||| (byt p 5 <<< 16)
    let gb1 := if jc.button_set &&& JOYCON_BUTTONSET_LEFT ≠ 0 then
        (g.buttons &&& u32_not JOYCON_BUTTONS_LEFT) ||| (jbtn &&& JOYCON_BUTTONS_LEFT)
      else g.buttons
    let gb2 := if jc.button_set &&& JOYCON_BUTTONSET_RIGHT ≠ 0 then
        (gb1 &&& u32_not JOYCON_BUTTONS_RIGHT) ||| (jbtn &&& JOYCON_BUTTONS_RIGHT)
      else gb1
    let lx := if jc.button_set &&& JOYCON_BUTTONSET_LEFT ≠ 0 then
        ((((byt p 7 &&& 0x0F) <<< 4) ||| ((byt p 6 &&& 0xF0) >>> 4) : Nat) : Int) else g.stick_lx
    let ly := if jc.button_set &&& JOYCON_BUTTONSET_LEFT ≠ 0 then
        (256 - (byt p 8 : Int)) else g.stick_ly
    let rx := if jc.button_set &&& JOYCON_BUTTONSET_RIGHT ≠ 0 then
        ((((byt p 10 &&& 0x0F) <<< 4) ||| ((byt p 9 &&& 0xF0) >>> 4) : Nat) : Int) else g.stick_rx
    let ry := if jc.button_set &&& JOYCON_BUTTONSET_RIGHT ≠ 0 then
        (256 - (byt p 11 : Int)) else g.stick_ry
    ({ jc with buttons := jbtn, num_samples := jc.num_samples + 1 },
     { buttons := gb2, stick_lx := lx, stick_ly := ly, stick_rx := rx, stick_ry := ry })
  else
    (jc, g)

/-! ## joycon_initret_parse

Embeds `joycon_initret_parse`. `p` is the sub-packet pointer
`packet + sizeof(joycon_uart_initial) + 1`; `p 0` is the init
sub-command byte. The `JOYCON_INIT_MAC` case runs
`for (i = 0xC; i >= 0x6; i--) joycon->mac[j++] = packet[i];` with the
local `j` UNINITIALIZED; the loop body executes for
i = 0xC, 0xB, 0xA, 0x9, 0x8, 0x7, 0x6 — seven iterations. The writes it
performs into `u8 mac[6]` are recorded as (array index, byte) pairs,
parameterised by the initial junk value `j0` of `j`. -/

/-- The exact (index, value) write trace of the MAC copy loop
`for (i = 0xC; i >= 0x6; i--) joycon->mac[j++] = packet[i];`,
unrolled: `i` counts 0xC down to 0x6 inclusive while `j` counts up from
its initial (uninitialized) value `j0`. -/
def mac_copy_writes (j0 : Nat) (p : Nat → Nat) : List (Nat × Nat) :=
  [(j0, byt p 0xC), (j0 + 1, byt p 0xB), (j0 + 2, byt p 0xA), (j0 + 3, byt p 0x9),
   (j0 + 4, byt p 0x8), (j0 + 5, byt p 0x7), (j0 + 6, byt p 0x6)]

/-- Transport-level side effect of an initret packet: the
`JOYCON_INIT_BAUDRATE` case calls `serdev_device_set_baudrate(serdev, 3125000)`. -/
def initret_baud (p : Nat → Nat) : Option Nat :=
  if byt p 0 = JOYCON_INIT_BAUDRATE then some 3125000 else none

/-- Embedding of `joycon_initret_parse`, taking the initial value `j0` of
the uninitialized local `j`. Returns the updated session state together
with the write trace of the MAC copy loop (empty for non-MAC packets).
The session update mirrors the effective behaviour when `j0 = 0`:
`joycon->mac[0]` ends up holding `packet[0xC]`, and `button_set` is set
to LEFT when that byte differs from 0x7C, RIGHT when it equals 0x7C. -/
def joycon_initret_parse (jc : JoyconState) (j0 : Nat) (p : Nat → Nat) :
    JoyconState × List (Nat × Nat) :=
  if byt p 0 = JOYCON_INIT_MAC then
    ({ jc with button_set :=
        (if byt p 0xC ≠ 0x7C then JOYCON_BUTTONSET_LEFT else JOYCON_BUTTONSET_RIGHT) },
     mac_copy_writes j0 p)
  else
    (jc, [])

/-! ## joycon_packet_parse

Embeds `joycon_packet_parse`. The C code casts the buffer to
`joycon_uart_header` and switches on `header->command` at byte offset 5
(after `magic[3]`, `total_size`, `pad`): there is no check of the magic
bytes, the length field, or the crc. `JOYCON_COMMAND_EXTRET` dispatches
to `joycon_extret_parse` at offset `sizeof(joycon_uart_header)` = 12;
`JOYCON_COMMAND_INITRET` dispatches to `joycon_initret_parse` at offset
`sizeof(joycon_uart_initial) + 1` = 6; `JOYCON_COMMAND_HANDSHAKE` sets
`handshaken = true`; anything else only logs. The uninitialized local
`j` of the initret path is threaded through as `j0`. -/

/-- Embedding of `joycon_packet_parse` (and hence of
`joycon_serdev_receive_buf`, which forwards every receive buffer to it
unconditionally). -/
def joycon_packet_parse (jc : JoyconState) (g : GlobalState) (j0 : Nat) (p : Nat → Nat) :
    JoyconState × GlobalState :=
  if byt p 5 = JOYCON_COMMAND_EXTRET then
    joycon_extret_parse jc g (fun i => p (12 + i))
  else if byt p 5 = JOYCON_COMMAND_INITRET then
    ((joycon_initret_parse jc j0 (fun i => p (6 + i))).1, g)
  else if byt p 5 = JOYCON_COMMAND_HANDSHAKE then
    ({ jc with handshaken := true }, g)
  else
    (jc, g)

/-! ## timeout_handler (liveness monitor)

`timeout_handler` checks the stall condition, and if it holds clears
`handshaken`/`initialized` and loops sending `magic_start` +
`handshake_start` until `handshaken` is observed true (set by the
concurrent receive path) or a `serdev_device_write` returns an error
(`goto fail`). On loop exit it writes `get_mac`, `unk_1`, `unk_2`,
`unk_3` (their error codes are ignored; `switch_baud` is commented out),
zeroes `num_samples` and sets `initialized`. In every path, the `fail`
label then sets `timeout_samples = num_samples` and re-queues the work
at `msecs_to_jiffies(200)`.

The handshake loop's exit is decided by the environment (the concurrent
receive path and the transport); `HsOutcome` records every way a
terminating execution of the loop can go: `k` full (magic + handshake)
iterations followed by an erroring magic write, `k` full iterations
followed by an erroring handshake write, or `k + 1` full iterations
after which `handshaken` is observed true. The loop body runs at least
once because `handshaken` was just set false on entry. -/

/-- Outcome of the `while (!joycon->handshaken)` send loop, as decided by
the transport and the concurrent receive path. -/
inductive HsOutcome
  | magicFail (k : Nat)
  | handshakeFail (k : Nat)
  | acked (k : Nat)
deriving DecidableEq, Repr

/-- One full iteration of the handshake loop body writes `magic_start`
then `handshake_start`. -/
def hs_attempt : List Cmd := [Cmd.magicStart, Cmd.handshakeStart]

/-- The transport writes attempted by the handshake loop under a given
outcome (a failing `serdev_device_write` still counts as attempted). -/
def hs_loop_writes : HsOutcome → List Cmd
  | .magicFail k => (List.replicate k hs_attempt).flatten ++ [Cmd.magicStart]
  | .handshakeFail k => (List.replicate k hs_attempt).flatten ++ hs_attempt
  | .acked k => (List.replicate (k + 1) hs_attempt).flatten

/-- Whether the loop ended on a write error (`goto fail` before the init
sequence). -/
def hs_failed : HsOutcome → Bool
  | .magicFail _ => true
  | .handshakeFail _ => true
  | .acked _ => false

/-- The C stall test
`(joycon->num_samples - joycon->timeout_samples == 0 && joycon->num_samples) || !joycon->initialized`. -/
def stall_cond (s : JoyconState) : Bool :=
  (s.num_samples - s.timeout_samples == 0 && !(s.num_samples == 0)) || !s.initialized

/-- Result of one periodic-task tick: the session state after the tick,
the transport writes it attempted in order, and the delay in
milliseconds it re-queued itself with. -/
structure TickResult where
  s : JoyconState
  writes : List Cmd
  rearmMs : Nat
deriving DecidableEq, Repr

/-- Embedding of `timeout_handler`, one tick of the liveness monitor. -/
def timeout_handler (s : JoyconState) (hs : HsOutcome) : TickResult :=
  if stall_cond s then
    let s1 : JoyconState := { s with handshaken := false, initialized := false }
    if hs_failed hs then
      { s := { s1 with timeout_samples := s1.num_samples },
        writes := hs_loop_writes hs,
        rearmMs := 200 }
    else
      let s2 : JoyconState := { s1 with handshaken := true }
      let s3 : JoyconState := { s2 with num_samples := 0, initialized := true }
      { s := { s3 with timeout_samples := s3.num_samples },
        writes := hs_loop_writes hs ++ [Cmd.getMac, Cmd.unk1, Cmd.unk2, Cmd.unk3],
        rearmMs := 200 }
  else
    { s := { s with timeout_samples := s.num_samples },
      writes := [],
      rearmMs := 200 }

/-! ## input_handler (status poller) -/

/-- Embedding of `input_handler`: writes `controller_status` when (and
only when) `joycon->initialized`, then re-queues itself at
`msecs_to_jiffies(16)`. The session state is untouched. -/
def input_handler (s : JoyconState) : TickResult :=
  { s := s,
    writes := if s.initialized then [Cmd.controllerStatus] else [],
    rearmMs := 16 }

/-- The initial delay `joycon_serdev_probe` queues the input-poll work
with (`msecs_to_jiffies(200)`); every subsequent re-arm uses
`input_handler`'s own 16 ms delay. -/
def input_handler_initial_delay_ms : Nat := 200

/-! ## sync_handler (aggregator / output sync)

Button codes from the Linux input event namespace
(`input-event-codes.h`), as listed in the driver's
`joycon_common_btn[]` table; the table ends with a `-1` terminator. -/

/-- The 24 button codes of `joycon_common_btn[]` in table order
(BTN_Y, BTN_X, BTN_B, BTN_A, BTN_0, BTN_1, BTN_TR, BTN_TR2, BTN_SELECT,
BTN_START, BTN_THUMBR, BTN_THUMBL, BTN_MODE, BTN_Z, BTN_4, BTN_5,
BTN_DPAD_DOWN, BTN_DPAD_UP, BTN_DPAD_RIGHT, BTN_DPAD_LEFT, BTN_2, BTN_3,
BTN_TL, BTN_TL2), with their numeric values from the host environment's
`input-event-codes.h`. -/
def btn_codes : List Int :=
  [0x134, 0x133, 0x131, 0x130,
   0x100, 0x101, 0x137, 0x139,
   0x13a, 0x13b,
   0x13e, 0x13d,
   0x13c, 0x135,
   0x104, 0x105,
   0x221, 0x220, 0x223, 0x222,
   0x102, 0x103, 0x136, 0x138]

/-- Table `joycon_common_btn[]`: the 24 button codes followed by the `-1`
terminating entry. -/
def joycon_common_btn : List Int := btn_codes ++ [-1]

/-- One event emitted to the input sink by the sync task: a
`input_report_key` call (code, raw value `buttons & BIT(i)`), an
`input_report_abs` call, or the final `input_sync`. -/
inductive Ev
  | key (code : Int) (value : Nat)
  | abs (a : Axis) (v : Int)
  | sync
deriving DecidableEq, Repr

/-- The `for (i = 0; joycon_common_btn[i] >= 0; i++)` loop of
`sync_handler`: report each table entry with value `buttons & BIT(i)`,
stopping at the first negative entry. -/
def report_keys (btns : Nat) : List Int → Nat → List Ev
  | [], _ => []
  | c :: rest, i =>
      if 0 ≤ c then Ev.key c (btns &&& (1 <<< i)) :: report_keys btns rest (i + 1)
      else []

/-- Embedding of `sync_handler`: under `joycon_input_lock`, report every
tracked button, the four axis values, one `input_sync`, then re-queue at
`msecs_to_jiffies(10)`. -/
def sync_handler (g : GlobalState) : List Ev × Nat :=
  (report_keys g.buttons joycon_common_btn 0 ++
     [Ev.abs Axis.X g.stick_lx, Ev.abs Axis.Y g.stick_ly,
      Ev.abs Axis.RX g.stick_rx, Ev.abs Axis.RY g.stick_ry, Ev.sync],
   10)

/-! ## Concrete test inputs used by witnesses and counterexamples -/

/-- An ext-report sub-packet whose 24-bit button field is exactly
`JOYCON_BUTTONS_LEFT` (bytes 3..5 = 0x00, 0xE9, 0xFF). -/
def all_left_report : Nat → Nat := fun i =>
  if i = 0 then JOYCON_EXT_INPUT
  else if i = 3 then 0x00 else if i = 4 then 0xE9 else if i = 5 then 0xFF else 0

/-- An ext-report sub-packet whose 24-bit button field is exactly
`JOYCON_BUTTONS_RIGHT` (bytes 3..5 = 0xFF, 0x76, 0x00). -/
def all_right_report : Nat → Nat := fun i =>
  if i = 0 then JOYCON_EXT_INPUT
  else if i = 3 then 0xFF else if i = 4 then 0x76 else 0

/-- An ext-report sub-packet with every button released (all payload
bytes zero apart from the `JOYCON_EXT_INPUT` tag). -/
def no_buttons_report : Nat → Nat := fun i =>
  if i = 0 then JOYCON_EXT_INPUT else 0

/-- A full inbound frame whose magic bytes are wrong (all zero instead
of 0x19, 0x01, 0x03) but whose command byte (offset 5) is
`JOYCON_COMMAND_HANDSHAKE`. -/
def bad_magic_handshake_frame : Nat → Nat := fun i =>
  if i = 5 then JOYCON_COMMAND_HANDSHAKE else 0

/-- An initret sub-packet carrying an identifier reply
(`JOYCON_INIT_MAC`), with recognisable payload bytes. -/
def mac_reply_packet : Nat → Nat := fun i =>
  if i = 0 then JOYCON_INIT_MAC else 0x40 + i

/-- A quiescent session state: not handshaken, not initialized, all
counters and fields zero. -/
def jc0 : JoyconState :=
  { handshaken := false, initialized := false, timeout_samples := 0,
    num_samples := 0, button_set := 0, buttons := 0 }

/-- The aggregate state at module load: all static globals zero. -/
def g0 : GlobalState :=
  { buttons := 0, stick_lx := 0, stick_ly := 0, stick_rx := 0, stick_ry := 0 }

end Joycon

namespace Joycon

/-! ## Helper lemmas -/

/-- Lemma: `joycon_extret_parse` reads only bytes 0..11 of its sub-packet. -/
theorem extret_parse_congr (jc : JoyconState) (g : GlobalState) {p q : Nat → Nat}
    (h : ∀ i, i ≤ 11 → p i = q i) :
    joycon_extret_parse jc g p = joycon_extret_parse jc g q := by
  have h0 := h 0 (by norm_num)
  have h3 := h 3 (by norm_num)
  have h4 := h 4 (by norm_num)
  have h5 := h 5 (by norm_num)
  have h6 := h 6 (by norm_num)
  have h7 := h 7 (by norm_num)
  have h8 := h 8 (by norm_num)
  have h9 := h 9 (by norm_num)
  have h10 := h 10 (by norm_num)
  have h11 := h 11 (by norm_num)
  simp only [joycon_extret_parse, byt, h0, h3, h4, h5, h6, h7, h8, h9, h10, h11]

/-- The session-state component of `joycon_initret_parse` reads only
bytes 0 and 0xC of its sub-packet. -/
theorem initret_parse_fst_congr (jc : JoyconState) (j0 : Nat) {p q : Nat → Nat}
    (h0 : p 0 = q 0) (hc : p 0xC = q 0xC) :
    (joycon_initret_parse jc j0 p).1 = (joycon_initret_parse jc j0 q).1 := by
  simp only [joycon_initret_parse, byt, h0, hc]
  split <;> rfl

/-- The C stall test is exactly "the counter has not advanced and is
nonzero, or the session is not initialized". -/
theorem stall_cond_iff (s : JoyconState) :
    stall_cond s = true ↔
      ((s.num_samples = s.timeout_samples ∧ s.num_samples ≠ 0) ∨ s.initialized = false) := by
  simp [stall_cond, sub_eq_zero]

/-! ## Theorems -/

/-- C5 counterexample: the status poller does not run at a ~200 ms
period — `input_handler` re-queues itself with `msecs_to_jiffies(16)`,
a 16 ms delay, on every tick (here evaluated on an initialized
session). -/
theorem C5_counterexample :
    (input_handler { jc0 with initialized := true }).rearmMs = 16 ∧
    (input_handler { jc0 with initialized := true }).rearmMs ≠ 200 := by
  constructor
  · rfl
  · decide

/-- C5 (amended): on every `input_handler` tick, a `controller_status`
frame is written to the transport if and only if the session is
initialized (otherwise the tick writes nothing), the session state is
untouched, and the task re-arms itself with a 16 ms delay (the initial
arm from probe is 200 ms, but every self-re-arm is 16 ms). -/
theorem C5_status_poll (s : JoyconState) :
    ((input_handler s).writes = [Cmd.controllerStatus] ↔ s.initialized = true) ∧
    ((input_handler s).writes = [] ↔ s.initialized = false) ∧
    (input_handler s).s = s ∧
    (input_handler s).rearmMs = 16 ∧
    input_handler_initial_delay_ms = 200 := by
  cases h : s.initialized <;>
    simp [input_handler, input_handler_initial_delay_ms, h]

/-- C7: a frame whose command byte is `JOYCON_COMMAND_HANDSHAKE` makes
the session handshaken (`handshaken := true`) and changes nothing else;
in particular, when the session is already handshaken (e.g. Ready) the
frame leaves the session and aggregate state completely unchanged, so a
repeated ack cannot re-trigger initialization or change the phase. -/
theorem C7_handshake_ack_once (jc : JoyconState) (g : GlobalState) (j0 : Nat)
    (p : Nat → Nat) (h : p 5 = JOYCON_COMMAND_HANDSHAKE) :
    joycon_packet_parse jc g j0 p = ({ jc with handshaken := true }, g) ∧
    (jc.handshaken = true → joycon_packet_parse jc g j0 p = (jc, g)) := by
  have hb : byt p 5 = JOYCON_COMMAND_HANDSHAKE := by
    simp [byt, h, JOYCON_COMMAND_HANDSHAKE]
  have h1 : joycon_packet_parse jc g j0 p = ({ jc with handshaken := true }, g) := by
    simp [joycon_packet_parse, hb, JOYCON_COMMAND_EXTRET, JOYCON_COMMAND_INITRET,
      JOYCON_COMMAND_HANDSHAKE]
  refine ⟨h1, fun hh => ?_⟩
  cases jc
  simp_all

/-- C7 witness: a handshake-ack frame received by an already-Ready
session leaves it unchanged. -/
theorem C7_witness :
    (0xA5 : Nat) = JOYCON_COMMAND_HANDSHAKE ∧
    joycon_packet_parse { jc0 with handshaken := true, initialized := true } g0 0
        (fun i => if i = 5 then 0xA5 else 0) =
      ({ jc0 with handshaken := true, initialized := true }, g0) := by
  refine ⟨rfl, ?_⟩
  exact (C7_handshake_ack_once { jc0 with handshaken := true, initialized := true } g0 0
    (fun i => if i = 5 then 0xA5 else 0) rfl).2 rfl

/-- C10: a session whose side is still unknown (`button_set = 0`)
processing an `InputReport` leaves the aggregate state entirely
unchanged; only its local `buttons` field is rewritten from payload
bytes 3..5 and its `num_samples` counter increases by exactly 1. -/
theorem C10_unknown_side_no_global_effect (jc : JoyconState) (g : GlobalState)
    (p : Nat → Nat) (hside : jc.button_set = 0) (htag : p 0 = JOYCON_EXT_INPUT) :
    (joycon_extret_parse jc g p).2 = g ∧
    (joycon_extret_parse jc g p).1 =
      { jc with buttons := byt p 3 ||| (byt p 4 <<< 8) ||| (byt p 5 <<< 16),
                num_samples := jc.num_samples + 1 } := by
  have hb : byt p 0 = JOYCON_EXT_INPUT := by
    simp [byt, htag, JOYCON_EXT_INPUT]
  cases g
  simp [joycon_extret_parse, hb, hside, JOYCON_BUTTONSET_LEFT, JOYCON_BUTTONSET_RIGHT]

/-- C4 code bug, evaluated on a concrete `IdentifierReply` packet: the
MAC copy loop `for (i = 0xC; i >= 0x6; i--) joycon->mac[j++] = packet[i];`
performs SEVEN writes (payload offsets 0xC down to 0x6), so even in the
best case where the uninitialized local `j` happens to start at 0, the
write indices are 0..6 and the last write lands at index 6, outside the
six-element array `u8 mac[6]` — not the 6-byte extraction the claim
(and the array declaration, and the 6-byte printk) intend. -/
theorem C4_mac_copy_out_of_bounds :
    byt mac_reply_packet 0 = JOYCON_INIT_MAC ∧
    (joycon_initret_parse jc0 0 mac_reply_packet).2.length = 7 ∧
    (joycon_initret_parse jc0 0 mac_reply_packet).2.map Prod.fst = [0, 1, 2, 3, 4, 5, 6] ∧
    mac_array_size = 6 ∧
    (∃ w ∈ (joycon_initret_parse jc0 0 mac_reply_packet).2, ¬ w.1 < mac_array_size) := by
  decide

/-- C2 counterexample: a frame whose three magic bytes are all wrong
(zero instead of 0x19, 0x01, 0x03) is not rejected — because
`joycon_packet_parse` never inspects bytes 0..4, the frame is dispatched
on its command byte and mutates session state (here it marks the session
handshaken). -/
theorem C2_counterexample :
    bad_magic_handshake_frame 0 ≠ 0x19 ∧
    bad_magic_handshake_frame 1 ≠ 0x01 ∧
    bad_magic_handshake_frame 2 ≠ 0x03 ∧
    jc0.handshaken = false ∧
    (joycon_packet_parse jc0 g0 0 bad_magic_handshake_frame).1.handshaken = true := by
  decide

/-- C2 (amended): the decoder performs no magic or length validation at
all. Its result is invariant under arbitrary changes to bytes 0..4
(magic, length, pad) of the frame, so classification depends only on
the command byte at offset 5 and the payload behind it; and a frame
whose command byte is none of EXTRET/INITRET/HANDSHAKE is dropped with
no session or aggregate state change. -/
theorem C2_no_magic_or_length_validation (jc : JoyconState) (g : GlobalState) (j0 : Nat)
    (p q r : Nat → Nat) (hagree : ∀ i, 5 ≤ i → p i = q i)
    (hr1 : byt r 5 ≠ JOYCON_COMMAND_EXTRET) (hr2 : byt r 5 ≠ JOYCON_COMMAND_INITRET)
    (hr3 : byt r 5 ≠ JOYCON_COMMAND_HANDSHAKE) :
    joycon_packet_parse jc g j0 p = joycon_packet_parse jc g j0 q ∧
    joycon_packet_parse jc g j0 r = (jc, g) := by
  constructor
  · have h5 : byt p 5 = byt q 5 := by simp [byt, hagree 5 (le_refl 5)]
    unfold joycon_packet_parse
    rw [h5]
    split_ifs with h1 h2 h3
    · exact extret_parse_congr jc g (fun i hi => hagree (12 + i) (by omega))
    · have hfst := @initret_parse_fst_congr jc j0 (fun i => p (6 + i)) (fun i => q (6 + i))
        (hagree 6 (by omega)) (hagree 18 (by omega))
      rw [hfst]
    · rfl
    · rfl
  · simp [joycon_packet_parse, hr1, hr2, hr3]

/-- C2 witness: scribbling over the magic/length/pad bytes of an
all-zero frame does not change how it is parsed, and an all-zero frame
(command byte 0) is dropped without any state change. -/
theorem C2_witness :
    joycon_packet_parse jc0 g0 0 (fun _ => 0) =
      joycon_packet_parse jc0 g0 0 (fun i => if i < 5 then 9 else 0) ∧
    joycon_packet_parse jc0 g0 0 (fun _ => 0) = (jc0, g0) :=
  C2_no_magic_or_length_validation jc0 g0 0 (fun _ => 0) (fun i => if i < 5 then 9 else 0)
    (fun _ => 0)
    (by intro i h; simp [Nat.not_lt.2 h])
    (by decide) (by decide) (by decide)

/-- C3: one liveness-monitor tick restarts the handshake (sends
`magic_start`, forcing the session through Unhandshaken) exactly when
the sample counter did not advance since the previous tick while being
nonzero, or the session is not fully initialized; and in every outcome
of the tick — including transport write failure — `timeout_samples`
ends equal to the (possibly reset) current `num_samples` and the task
re-arms itself with a 200 ms delay. -/
theorem C3_liveness_tick (s : JoyconState) (hs : HsOutcome) :
    (Cmd.magicStart ∈ (timeout_handler s hs).writes ↔
      ((s.num_samples = s.timeout_samples ∧ s.num_samples ≠ 0) ∨ s.initialized = false)) ∧
    (timeout_handler s hs).s.timeout_samples = (timeout_handler s hs).s.num_samples ∧
    (timeout_handler s hs).rearmMs = 200 := by
  by_cases h : stall_cond s = true
  · refine ⟨?_, ?_, ?_⟩
    · rw [← stall_cond_iff]
      simp only [h, iff_true]
      cases hs <;>
        simp [timeout_handler, h, hs_failed, hs_loop_writes, hs_attempt,
          List.replicate_succ]
    · cases hs <;> simp [timeout_handler, h, hs_failed]
    · cases hs <;> simp [timeout_handler, h, hs_failed]
  · have h' : stall_cond s = false := by simpa using h
    refine ⟨?_, ?_, ?_⟩
    · rw [← stall_cond_iff]
      simp [timeout_handler, h']
    · simp [timeout_handler, h']
    · simp [timeout_handler, h']

/-- C6: when the stall test fires and the handshake loop ends with an
ack, the tick writes — right after the handshake attempts — the
read-identifier request (`get_mac`) followed by `unk_1`, `unk_2`,
`unk_3`, with no intervening wait for replies (their error codes are
not even checked), and then immediately marks the session handshaken
and initialized with `num_samples` reset to 0; no acknowledgment frame
is involved in reaching that state. -/
theorem C6_init_sequence (s : JoyconState) (k : Nat) (h : stall_cond s = true) :
    (timeout_handler s (HsOutcome.acked k)).writes =
      (List.replicate (k + 1) hs_attempt).flatten ++
        [Cmd.getMac, Cmd.unk1, Cmd.unk2, Cmd.unk3] ∧
    (timeout_handler s (HsOutcome.acked k)).s.handshaken = true ∧
    (timeout_handler s (HsOutcome.acked k)).s.initialized = true ∧
    (timeout_handler s (HsOutcome.acked k)).s.num_samples = 0 := by
  simp [timeout_handler, h, hs_failed, hs_loop_writes]

/-- C6 witness: a quiescent (never-initialized) session whose handshake
gets acked on the first attempt sends magic, handshake, then exactly
`get_mac`, `unk_1`, `unk_2`, `unk_3`, and ends initialized with a zero
sample counter. -/
theorem C6_witness :
    stall_cond jc0 = true ∧
    (timeout_handler jc0 (HsOutcome.acked 0)).writes =
      [Cmd.magicStart, Cmd.handshakeStart, Cmd.getMac, Cmd.unk1, Cmd.unk2, Cmd.unk3] ∧
    (timeout_handler jc0 (HsOutcome.acked 0)).s.initialized = true ∧
    (timeout_handler jc0 (HsOutcome.acked 0)).s.num_samples = 0 := by
  have h := C6_init_sequence jc0 0 (by decide)
  exact ⟨by decide, by simpa [hs_attempt] using h.1, h.2.2.1, h.2.2.2⟩

/-- C10 witness: a side-unknown session processing an all-left-bits
report leaves the aggregate state at its initial value while its local
field and counter update. -/
theorem C10_witness :
    jc0.button_set = 0 ∧ all_left_report 0 = JOYCON_EXT_INPUT ∧
    (joycon_extret_parse jc0 g0 all_left_report).2 = g0 ∧
    (joycon_extret_parse jc0 g0 all_left_report).1 =
      { jc0 with buttons := byt all_left_report 3 ||| (byt all_left_report 4 <<< 8) |||
          (byt all_left_report 5 <<< 16), num_samples := jc0.num_samples + 1 } := by
  refine ⟨rfl, rfl, ?_⟩
  exact C10_unknown_side_no_global_effect jc0 g0 all_left_report rfl rfl

/-- C9: for any `InputReport` processed by a session owning a side, the
decoded left-stick values are
`stick_lx = ((payload[7] & 0x0F) << 4) | ((payload[6] & 0xF0) >> 4)` and
`stick_ly = 256 - payload[8]` (symmetrically `stick_rx` from payload
bytes 9..10 and `stick_ry = 256 - payload[11]` for the right side); and
since the registered axis maximum is `255 - 32 = 223`, a payload with
byte 8 equal to 0 stores a Y value of 256, exceeding that maximum. -/
theorem C9_stick_decode (jc : JoyconState) (g : GlobalState) (p : Nat → Nat)
    (hbytes : ∀ i, p i < 256) (htag : p 0 = JOYCON_EXT_INPUT) :
    (jc.button_set &&& JOYCON_BUTTONSET_LEFT ≠ 0 →
      (joycon_extret_parse jc g p).2.stick_lx =
        ((((p 7 &&& 0x0F) <<< 4) ||| ((p 6 &&& 0xF0) >>> 4) : Nat) : Int) ∧
      (joycon_extret_parse jc g p).2.stick_ly = 256 - (p 8 : Int)) ∧
    (jc.button_set &&& JOYCON_BUTTONSET_RIGHT ≠ 0 →
      (joycon_extret_parse jc g p).2.stick_rx =
        ((((p 10 &&& 0x0F) <<< 4) ||| ((p 9 &&& 0xF0) >>> 4) : Nat) : Int) ∧
      (joycon_extret_parse jc g p).2.stick_ry = 256 - (p 11 : Int)) ∧
    (jc.button_set &&& JOYCON_BUTTONSET_LEFT ≠ 0 → p 8 = 0 →
      (joycon_extret_parse jc g p).2.stick_ly = 256 ∧
      axis_max = 223 ∧ (223 : Int) < 256) := by
  have hb : ∀ i, byt p i = p i := fun i => Nat.mod_eq_of_lt (hbytes i)
  have h0 : byt p 0 = JOYCON_EXT_INPUT := by rw [hb 0, htag]
  refine ⟨fun hl => ?_, fun hr => ?_, fun hl h8 => ?_⟩
  · simp [joycon_extret_parse, h0, hb, hl]
  · simp [joycon_extret_parse, h0, hb, hr]
  · refine ⟨?_, rfl, by norm_num⟩
    simp [joycon_extret_parse, h0, hb, hl, h8]

/-- C9 witness: a left-owning session processing a report whose byte 8
is zero ends with `stick_ly = 256`, above the registered maximum 223. -/
theorem C9_witness :
    ({ jc0 with button_set := JOYCON_BUTTONSET_LEFT }.button_set &&&
        JOYCON_BUTTONSET_LEFT ≠ 0) ∧
    no_buttons_report 8 = 0 ∧
    (joycon_extret_parse { jc0 with button_set := JOYCON_BUTTONSET_LEFT } g0
        no_buttons_report).2.stick_ly = 256 ∧
    (223 : Int) < 256 := by
  have h := C9_stick_decode { jc0 with button_set := JOYCON_BUTTONSET_LEFT } g0
    no_buttons_report
    (by intro i; simp only [no_buttons_report]; split <;> norm_num [JOYCON_EXT_INPUT])
    (by decide)
  exact ⟨by decide, by decide, (h.2.2 (by decide) (by decide)).1, by norm_num⟩

/-- C8: one `sync_handler` tick emits, in order, exactly one
`input_report_key` event per tracked button — the i-th carrying
`buttons & BIT(i)`, bit i of the merged field, for all 24 table entries
before the -1 terminator — then the four stick-axis values, then a
single `input_sync`, and re-queues itself with a 10 ms delay. (In the
source the reads and emissions happen with `joycon_input_lock` held.) -/
theorem C8_sync_emissions (g : GlobalState) :
    (sync_handler g).1 =
      ((List.range 24).map fun i => Ev.key (btn_codes.getD i 0) (g.buttons &&& (1 <<< i))) ++
        [Ev.abs Axis.X g.stick_lx, Ev.abs Axis.Y g.stick_ly,
         Ev.abs Axis.RX g.stick_rx, Ev.abs Axis.RY g.stick_ry, Ev.sync] ∧
    btn_codes.length = 24 ∧
    ((sync_handler g).1.countP fun e => decide (e = Ev.sync)) = 1 ∧
    (sync_handler g).2 = 10 := by
  refine ⟨rfl, rfl, ?_, rfl⟩
  rfl

/-- Bitwise core of the two-sided merge: folding the left mask into a
24-bit aggregate and then the right mask (each merge clearing its own
mask first, at `u32` width) yields all 24 button bits.
Here 0xFF0016FF = `u32_not JOYCON_BUTTONS_LEFT`,
0xFFFF8900 = `u32_not JOYCON_BUTTONS_RIGHT`, and
0xFFFFFF = `JOYCON_BUTTONS_LEFT ||| JOYCON_BUTTONS_RIGHT`. -/
theorem merge_union_aux (x : Nat) (hx : x < 2 ^ 24) :
    (((x &&& 0xFF0016FF) ||| 0xFFE900) &&& 0xFFFF8900) ||| 0x76FF = 0xFFFFFF := by
  apply Nat.eq_of_testBit_eq
  intro i
  rcases Nat.lt_or_ge i 24 with h24 | h24
  · simp only [Nat.testBit_or, Nat.testBit_and]
    generalize x.testBit i = b
    interval_cases i <;> cases b <;> decide
  · have hp : (2 : Nat) ^ 24 ≤ 2 ^ i := Nat.pow_le_pow_right (by norm_num) h24
    have hx' : x.testBit i = false := Nat.testBit_lt_two_pow (lt_of_lt_of_le hx hp)
    have hL : (0xFFE900 : Nat).testBit i = false :=
      Nat.testBit_lt_two_pow (lt_of_lt_of_le (by norm_num) hp)
    have hR : (0x76FF : Nat).testBit i = false :=
      Nat.testBit_lt_two_pow (lt_of_lt_of_le (by norm_num) hp)
    have hU : (0xFFFFFF : Nat).testBit i = false :=
      Nat.testBit_lt_two_pow (lt_of_lt_of_le (by norm_num) hp)
    simp [Nat.testBit_or, Nat.testBit_and, hx', hL, hR, hU]

/-- C1 counterexample: the left and right button masks are NOT disjoint
— they share bits 13 and 14 (`JOYCON_BUTTONS_LEFT & JOYCON_BUTTONS_RIGHT
= 0x6000`) — and a right-session merge can clear bits owned by the left
mask: starting from an aggregate holding all left-owned bits, a
right-side session processing a no-buttons `InputReport` leaves the
aggregate no longer containing all left-owned bits. -/
theorem C1_counterexample :
    JOYCON_BUTTONS_LEFT &&& JOYCON_BUTTONS_RIGHT = 0x6000 ∧
    JOYCON_BUTTONS_LEFT &&& JOYCON_BUTTONS_RIGHT ≠ 0 ∧
    ((joycon_extret_parse { jc0 with button_set := JOYCON_BUTTONSET_RIGHT }
        { g0 with buttons := JOYCON_BUTTONS_LEFT } no_buttons_report).2.buttons &&&
      JOYCON_BUTTONS_LEFT ≠ JOYCON_BUTTONS_LEFT) := by
  decide

/-- C1 (amended): the two masks overlap in bits 13 and 14, and the
overlap bits can be cleared by the other side's merge; nevertheless, in
the claim's scenario — a left-classified session processing an
`InputReport` with all left-owned bits set, then a right-classified
session processing one with all right-owned bits set — the merged
button field ends exactly at the union of the two masks (starting from
any 24-bit aggregate value). -/
theorem C1_merge_union (g : GlobalState) (jl jr : JoyconState)
    (hl : jl.button_set = JOYCON_BUTTONSET_LEFT)
    (hr : jr.button_set = JOYCON_BUTTONSET_RIGHT)
    (hg : g.buttons < 2 ^ 24) :
    (joycon_extret_parse jr (joycon_extret_parse jl g all_left_report).2
        all_right_report).2.buttons =
      JOYCON_BUTTONS_LEFT ||| JOYCON_BUTTONS_RIGHT := by
  simp only [joycon_extret_parse, all_left_report, all_right_report, byt, u32_not, hl, hr,
    JOYCON_EXT_INPUT, JOYCON_BUTTONSET_LEFT, JOYCON_BUTTONSET_RIGHT,
    JOYCON_BUTTONS_LEFT, JOYCON_BUTTONS_RIGHT]
  norm_num
  exact merge_union_aux g.buttons hg

/-- C1 witness: from the zeroed aggregate, all-left-set on a left
session followed by all-right-set on a right session ends with the
merged field equal to the union of both masks. -/
theorem C1_witness :
    ({ jc0 with button_set := JOYCON_BUTTONSET_LEFT }.button_set = JOYCON_BUTTONSET_LEFT) ∧
    g0.buttons < 2 ^ 24 ∧
    (joycon_extret_parse { jc0 with button_set := JOYCON_BUTTONSET_RIGHT }
        (joycon_extret_parse { jc0 with button_set := JOYCON_BUTTONSET_LEFT } g0
          all_left_report).2 all_right_report).2.buttons =
      JOYCON_BUTTONS_LEFT ||| JOYCON_BUTTONS_RIGHT :=
  ⟨rfl, by norm_num [g0],
   C1_merge_union g0 { jc0 with button_set := JOYCON_BUTTONSET_LEFT }
     { jc0 with button_set := JOYCON_BUTTONSET_RIGHT } rfl rfl (by norm_num [g0])⟩

end Joycon
